import Mathlib

/-
  Verification development for the BLE wrapper of rustcam
  (src/platform/nuttx/ble_wrapper.c).

  The NimBLE backend (CONFIG_NIMBLE branch) is embedded as a functional
  state machine: each C function becomes a Lean function from the global
  state to a new state, a list of transport calls it issued, and its
  return code.  Calls into the NimBLE transport that can fail
  (ble_gap_adv_set_data, ble_gap_adv_start, ble_hs_util_ensure_addr,
  ble_hs_id_infer_auto, ble_hs_mbuf_to_flat, os_mbuf_append) are modelled
  by Boolean success oracles passed as explicit parameters, because their
  outcome is decided by the external stack, not by this code.
  Byte strings are lists of Nat; errno values are symbolic Int constants
  (only their sign and non-zeroness matter to the wrapper's callers).
-/

namespace RustCam

/-- Calls issued by the wrapper into the Bluetooth transport. -/
inductive TCall where
  | gapNameSet (name : List Nat)
  | advSetData (payload : List Nat)
  | advStart
  | advStop
  deriving DecidableEq, Repr

/-- Number of ble_gap_adv_start calls in a transport trace. -/
def countStart (tr : List TCall) : Nat :=
  tr.countP (fun c => match c with | TCall.advStart => true | _ => false)

/-- The global state of the NimBLE branch of ble_wrapper.c:
g_ble_initialized, g_ble_host_synced, g_ble_advertising, g_ble_connected,
g_conn_handle, g_device_name, g_pending_adv, the GATT command mailbox
(g_gatt_command with g_gatt_command_len, kept as the list of stored bytes),
the current read message g_gatt_read_msg, and whether the two background
threads (HCI socket thread, host thread) have been spawned. -/
structure BleState where
  initialized : Bool
  hostSynced : Bool
  advertising : Bool
  connected : Bool
  connHandle : Nat
  deviceName : List Nat
  pendingAdv : Bool
  gattCommand : List Nat
  readMsg : List Nat
  hciRunning : Bool
  hostRunning : Bool
  deriving DecidableEq, Repr

/-- Bytes of the default device name literal in the source. -/
def defaultName : List Nat := [82, 117, 115, 116, 67, 97, 109]

/-- Bytes of the default greeting string literal in the source. -/
def greeting : List Nat :=
  [72, 101, 108, 108, 111, 32, 102, 114, 111, 109, 32,
   82, 117, 115, 116, 67, 97, 109, 33]

/-- Initial values of the C globals. -/
def initialState : BleState :=
  { initialized := false, hostSynced := false, advertising := false,
    connected := false, connHandle := 0, deviceName := defaultName,
    pendingAdv := false, gattCommand := [], readMsg := greeting,
    hciRunning := false, hostRunning := false }

/-- Symbolic errno: device not initialized. -/
def ENODEV : Int := 19

/-- Symbolic errno: already initialized. -/
def EALREADY : Int := 114

/-- NimBLE constant BLE_HS_ADV_MAX_SZ: the declared capacity of the
stack buffer ad[] in do_start_advertising, and the transport's maximum
advertising-data size. -/
def BLE_HS_ADV_MAX_SZ : Nat := 31

/-- NimBLE constant BLE_HS_ADV_TYPE_FLAGS. -/
def ADV_TYPE_FLAGS : Nat := 1

/-- NimBLE constant BLE_HS_ADV_TYPE_COMP_NAME. -/
def ADV_TYPE_COMP_NAME : Nat := 9

/-- NimBLE flags BLE_HS_ADV_F_DISC_GEN (0x02) | BLE_HS_ADV_F_BREDR_UNSUP
(0x04). -/
def ADV_FLAGS : Nat := 6

/-- The advertising payload built byte for byte by do_start_advertising:
a flags structure [2, TYPE_FLAGS, flags] followed by a complete-local-name
structure [len+1, TYPE_COMP_NAME, name bytes].  The source performs no
truncation of the name. -/
def buildAdvPayload (name : List Nat) : List Nat :=
  [2, ADV_TYPE_FLAGS, ADV_FLAGS] ++ ([name.length + 1, ADV_TYPE_COMP_NAME] ++ name)

/-- do_start_advertising: submits the payload via ble_gap_adv_set_data
(success oracle sd); if that fails, returns with no further call and no
state change.  Otherwise issues ble_gap_adv_start (success oracle st);
only on its success is g_ble_advertising set to 1.  The function returns
void in C: its caller never learns of a failure. -/
def do_start_advertising (sd st : Bool) (s : BleState) : BleState × List TCall :=
  let payload := buildAdvPayload s.deviceName
  if sd = false then (s, [TCall.advSetData payload])
  else if st = false then (s, [TCall.advSetData payload, TCall.advStart])
  else ({ s with advertising := true }, [TCall.advSetData payload, TCall.advStart])

/-- The device-name update prefix of rust_ble_wrapper_start_advertising:
when a non-null non-empty name is supplied, strncpy stores its first 31
bytes into g_device_name and ble_svc_gap_device_name_set is called. -/
def nameUpdate (name : Option (List Nat)) (s : BleState) : BleState × List TCall :=
  match name with
  | none => (s, [])
  | some n =>
      if n = [] then (s, [])
      else ({ s with deviceName := n.take 31 }, [TCall.gapNameSet (n.take 31)])

/-- rust_ble_wrapper_start_advertising: -ENODEV when not initialized;
otherwise updates the name, then either starts directly (host synced) or
records a pending request (g_pending_adv = 1).  Returns 0 in both of the
latter cases, even when the transport calls inside
do_start_advertising fail. -/
def rust_ble_wrapper_start_advertising (sd st : Bool) (name : Option (List Nat))
    (s : BleState) : BleState × List TCall × Int :=
  if s.initialized = false then (s, [], -ENODEV)
  else
    let r := nameUpdate name s
    if r.1.hostSynced = true then
      let r2 := do_start_advertising sd st r.1
      (r2.1, r.2 ++ r2.2, 0)
    else ({ r.1 with pendingAdv := true }, r.2, 0)

/-- rust_ble_wrapper_stop_advertising (NimBLE branch): a no-op success
when not advertising; otherwise issues ble_gap_adv_stop, clears the
advertising and pending flags, and returns 0. -/
def rust_ble_wrapper_stop_advertising (s : BleState) : BleState × List TCall × Int :=
  if s.advertising = false then (s, [], 0)
  else ({ s with advertising := false, pendingAdv := false }, [TCall.advStop], 0)

/-- rust_ble_wrapper_deinit: -ENODEV when not initialized; otherwise
stops advertising if active, clears initialized and hostSynced. -/
def rust_ble_wrapper_deinit (s : BleState) : BleState × List TCall × Int :=
  if s.initialized = false then (s, [], -ENODEV)
  else if s.advertising = true then
    ({ s with advertising := false, initialized := false, hostSynced := false },
     [TCall.advStop], 0)
  else ({ s with initialized := false, hostSynced := false }, [], 0)

/-- rust_ble_wrapper_init: -EALREADY when already initialized; the rc of
ble_gatts_count_cfg, ble_gatts_add_svcs and the two pthread_create calls
are oracles (0 = success).  The bnep0 bring-up and
ble_svc_gap_device_name_set failures are only logged and do not affect
the governing state.  After the HCI socket thread is spawned, a failure
to spawn the host thread returns the error WITHOUT stopping the HCI
thread and without setting g_ble_initialized. -/
def rust_ble_wrapper_init (countRc addRc hciRc hostRc : Int) (s : BleState) :
    BleState × Int :=
  if s.initialized = true then (s, -EALREADY)
  else if countRc ≠ 0 then (s, -countRc)
  else if addRc ≠ 0 then (s, -addRc)
  else if hciRc ≠ 0 then (s, -hciRc)
  else if hostRc ≠ 0 then ({ s with hciRunning := true }, -hostRc)
  else ({ s with hciRunning := true, hostRunning := true, initialized := true }, 0)

/-- ble_on_sync: generates and sets a random address (failures only
logged); ble_hs_util_ensure_addr (oracle en) and ble_hs_id_infer_auto
(oracle inf) failures return early, before the sync flag is set.
Otherwise g_ble_host_synced is set and, when a start was pending, the
pending flag is cleared and do_start_advertising runs. -/
def ble_on_sync (en inf sd st : Bool) (s : BleState) : BleState × List TCall :=
  if en = false then (s, [])
  else if inf = false then (s, [])
  else
    let s1 := { s with hostSynced := true }
    if s1.pendingAdv = true then
      do_start_advertising sd st { s1 with pendingAdv := false }
    else (s1, [])

/-- ble_on_reset: clears g_ble_host_synced only. -/
def ble_on_reset (s : BleState) : BleState :=
  { s with hostSynced := false }

/-- BLE_GAP_EVENT_CONNECT branch of ble_gap_event: on status 0 records
the connection; on failure status re-issues the start action when
g_ble_advertising is set. -/
def ble_gap_event_connect (status : Int) (h : Nat) (sd st : Bool) (s : BleState) :
    BleState × List TCall :=
  if status = 0 then ({ s with connected := true, connHandle := h }, [])
  else if s.advertising = true then do_start_advertising sd st s
  else (s, [])

/-- BLE_GAP_EVENT_DISCONNECT branch of ble_gap_event: clears
g_ble_connected, then re-issues the start action when g_ble_advertising
is set. -/
def ble_gap_event_disconnect (sd st : Bool) (s : BleState) : BleState × List TCall :=
  let s1 := { s with connected := false }
  if s1.advertising = true then do_start_advertising sd st s1 else (s1, [])

/-- Write branch of gatt_chr_access: truncates the incoming value to 63
bytes (sizeof(g_gatt_command) - 1) and stores it, overwriting any
undrained previous command; flatOk models ble_hs_mbuf_to_flat, whose
failure leaves the mailbox length unchanged. -/
def gatt_write_command (flatOk : Bool) (data : List Nat) (s : BleState) : BleState :=
  if flatOk = false then s
  else { s with gattCommand := data.take 63 }

/-- Read branch of gatt_chr_access: appends the current read message to
the response mbuf (appendOk models os_mbuf_append). -/
def gatt_read_chr (appendOk : Bool) (s : BleState) : Option (List Nat) :=
  if appendOk = true then some s.readMsg else none

/-- rust_ble_wrapper_gatt_get_command: returns the copied bytes, the C
return value, and the new state.  When the mailbox is empty or the
capacity is non-positive, returns 0 with no state change; otherwise
copies min(len, cap - 1) bytes and clears the mailbox unconditionally. -/
def rust_ble_wrapper_gatt_get_command (cap : Int) (s : BleState) :
    List Nat × Int × BleState :=
  let len : Int := s.gattCommand.length
  if len = 0 ∨ cap ≤ 0 then ([], 0, s)
  else
    let len2 := if len > cap - 1 then cap - 1 else len
    (s.gattCommand.take len2.toNat, len2, { s with gattCommand := [] })

/-- rust_ble_wrapper_gatt_has_command. -/
def rust_ble_wrapper_gatt_has_command (s : BleState) : Bool :=
  s.gattCommand.length > 0

/-- rust_ble_wrapper_gatt_set_read_msg: a null or empty message resets
the read buffer to the default greeting; otherwise the first 63 bytes of
the message are stored.  Always returns 0. -/
def rust_ble_wrapper_gatt_set_read_msg (msg : Option (List Nat)) (s : BleState) :
    BleState × Int :=
  match msg with
  | none => ({ s with readMsg := greeting }, 0)
  | some m =>
      if m = [] then ({ s with readMsg := greeting }, 0)
      else ({ s with readMsg := m.take 63 }, 0)

/-- rust_ble_wrapper_is_connected. -/
def rust_ble_wrapper_is_connected (s : BleState) : Bool :=
  s.connected

/-- Every operation and event handler of the NimBLE branch, with its
arguments and transport-success oracles, as a single step alphabet. -/
inductive Step where
  | startAdv (sd st : Bool) (name : Option (List Nat))
  | stopAdv
  | deinit
  | init (countRc addRc hciRc hostRc : Int)
  | sync (en inf sd st : Bool)
  | reset
  | connect (status : Int) (h : Nat) (sd st : Bool)
  | disconnect (sd st : Bool)
  | advComplete
  | mtu (v : Nat)
  | gattWrite (flatOk : Bool) (data : List Nat)
  | gattTake (cap : Int)
  | setReadMsg (m : Option (List Nat))
  deriving DecidableEq, Repr

/-- One step of the system: the state transition and trace of the
corresponding C function (return codes and outputs dropped).
BLE_GAP_EVENT_ADV_COMPLETE and BLE_GAP_EVENT_MTU only log. -/
def step : Step → BleState → BleState × List TCall
  | Step.startAdv sd st n, s =>
      let r := rust_ble_wrapper_start_advertising sd st n s
      (r.1, r.2.1)
  | Step.stopAdv, s =>
      let r := rust_ble_wrapper_stop_advertising s
      (r.1, r.2.1)
  | Step.deinit, s =>
      let r := rust_ble_wrapper_deinit s
      (r.1, r.2.1)
  | Step.init c a h1 h2, s => ((rust_ble_wrapper_init c a h1 h2 s).1, [])
  | Step.sync en inf sd st, s => ble_on_sync en inf sd st s
  | Step.reset, s => (ble_on_reset s, [])
  | Step.connect status h sd st, s => ble_gap_event_connect status h sd st s
  | Step.disconnect sd st, s => ble_gap_event_disconnect sd st s
  | Step.advComplete, s => (s, [])
  | Step.mtu _, s => (s, [])
  | Step.gattWrite ok d, s => (gatt_write_command ok d s, [])
  | Step.gattTake cap, s => ((rust_ble_wrapper_gatt_get_command cap s).2.2, [])
  | Step.setReadMsg m, s => ((rust_ble_wrapper_gatt_set_read_msg m s).1, [])

/-- Run a list of steps from a state, keeping only the final state. -/
def runSteps (l : List Step) (s : BleState) : BleState :=
  l.foldl (fun t st => (step st t).1) s

/-- Recognizer for the one step that changes the read message. -/
def isSetReadMsg : Step → Bool
  | Step.setReadMsg _ => true
  | _ => false

/-- State of the native (CONFIG_WIRELESS_BLUETOOTH) backend, as far as
its stop-advertising path observes it. -/
structure NativeBleState where
  initialized : Bool
  advertising : Bool
  deriving DecidableEq, Repr

/-- rust_ble_wrapper_stop_advertising of the native backend: -ENODEV
when not initialized; a no-op success when not advertising; otherwise an
ioctl SIOCBTADVSTOP whose failure (errno e) is surfaced as -e. -/
def native_stop_advertising (ioctlErr : Option Int) (s : NativeBleState) :
    NativeBleState × List TCall × Int :=
  if s.initialized = false then (s, [], -ENODEV)
  else if s.advertising = false then (s, [], 0)
  else
    match ioctlErr with
    | some e => (s, [TCall.advStop], -e)
    | none => ({ s with advertising := false }, [TCall.advStop], 0)

/-- An initialized state whose host has synchronized. -/
def syncedState : BleState :=
  { initialState with initialized := true, hostSynced := true }

/-- An initialized state with a deferred advertising request and the host
not yet synchronized. -/
def pendingState : BleState :=
  { initialState with initialized := true, pendingAdv := true }

/-- An initialized, synchronized, actively advertising state. -/
def advState : BleState :=
  { initialState with initialized := true, hostSynced := true, advertising := true }

/-- A 27-byte device name (27 repetitions of byte 65): short enough to be
stored whole in g_device_name (31-byte capacity), long enough that the
5 + 27 = 32 byte advertising payload exceeds BLE_HS_ADV_MAX_SZ = 31. -/
def name27 : List Nat := List.replicate 27 65

/-- A state holding a three-byte command in the mailbox. -/
def cmdState : BleState := { initialState with gattCommand := [10, 20, 30] }

/-- The state after writing command bytes 97 98 99 and then 100 101 to
the write characteristic, starting from the initial state. -/
def twoWritesState : BleState :=
  gatt_write_command true [100, 101] (gatt_write_command true [97, 98, 99] initialState)

/-- The result of one takeCommand with capacity 64 on that state. -/
def firstTake : List Nat × Int × BleState :=
  rust_ble_wrapper_gatt_get_command 64 twoWritesState

/-
  Preservation lemmas: which fields each operation leaves untouched.
-/

theorem do_start_hostSynced (sd st : Bool) (s : BleState) :
    (do_start_advertising sd st s).1.hostSynced = s.hostSynced := by
  simp only [do_start_advertising]
  split_ifs <;> rfl

theorem do_start_readMsg (sd st : Bool) (s : BleState) :
    (do_start_advertising sd st s).1.readMsg = s.readMsg := by
  simp only [do_start_advertising]
  split_ifs <;> rfl

theorem nameUpdate_hostSynced (n : Option (List Nat)) (s : BleState) :
    (nameUpdate n s).1.hostSynced = s.hostSynced := by
  cases n with
  | none => rfl
  | some m =>
      simp only [nameUpdate]
      split_ifs <;> rfl

theorem nameUpdate_advertising (n : Option (List Nat)) (s : BleState) :
    (nameUpdate n s).1.advertising = s.advertising := by
  cases n with
  | none => rfl
  | some m =>
      simp only [nameUpdate]
      split_ifs <;> rfl

theorem nameUpdate_readMsg (n : Option (List Nat)) (s : BleState) :
    (nameUpdate n s).1.readMsg = s.readMsg := by
  cases n with
  | none => rfl
  | some m =>
      simp only [nameUpdate]
      split_ifs <;> rfl

theorem start_advertising_readMsg (sd st : Bool) (n : Option (List Nat)) (s : BleState) :
    (rust_ble_wrapper_start_advertising sd st n s).1.readMsg = s.readMsg := by
  simp only [rust_ble_wrapper_start_advertising]
  split_ifs
  · rfl
  · rw [do_start_readMsg]
    exact nameUpdate_readMsg n s
  · exact nameUpdate_readMsg n s

theorem step_readMsg (a : Step) (s : BleState) (h : isSetReadMsg a = false) :
    (step a s).1.readMsg = s.readMsg := by
  cases a with
  | startAdv sd st n => exact start_advertising_readMsg sd st n s
  | stopAdv =>
      simp only [step, rust_ble_wrapper_stop_advertising]
      split_ifs <;> rfl
  | deinit =>
      simp only [step, rust_ble_wrapper_deinit]
      split_ifs <;> rfl
  | init c a h1 h2 =>
      simp only [step, rust_ble_wrapper_init]
      split_ifs <;> rfl
  | sync en inf sd st =>
      simp only [step, ble_on_sync]
      split_ifs <;> first
        | rfl
        | rw [do_start_readMsg]
  | reset => rfl
  | connect status hh sd st =>
      simp only [step, ble_gap_event_connect]
      split_ifs <;> first
        | rfl
        | rw [do_start_readMsg]
  | disconnect sd st =>
      simp only [step, ble_gap_event_disconnect]
      split_ifs <;> first
        | rfl
        | rw [do_start_readMsg]
  | advComplete => rfl
  | mtu v => rfl
  | gattWrite ok d =>
      simp only [step, gatt_write_command]
      split_ifs <;> rfl
  | gattTake cap =>
      simp only [step, rust_ble_wrapper_gatt_get_command]
      split_ifs <;> rfl
  | setReadMsg m => simp [isSetReadMsg] at h

theorem runSteps_readMsg (l : List Step) (s : BleState)
    (h : ∀ a ∈ l, isSetReadMsg a = false) :
    (runSteps l s).readMsg = s.readMsg := by
  induction l generalizing s with
  | nil => rfl
  | cons a t ih =>
      simp only [runSteps, List.foldl_cons]
      rw [show (List.foldl (fun t st => (step st t).1) (step a s).1 t) =
            runSteps t (step a s).1 from rfl]
      rw [ih (step a s).1 (fun b hb => h b (List.mem_cons_of_mem a hb))]
      exact step_readMsg a s (h a (List.mem_cons_self a t))

/-- C4 counterexample: in an initialized, synchronized state, when the
ble_gap_adv_set_data transport call inside the Start Advertising Action
fails (oracle false; the trace shows the attempted call and the absence
of any ble_gap_adv_start), rust_ble_wrapper_start_advertising still
returns 0, i.e. success: the failure is NOT reported to the caller,
refuting the claim at this concrete input. -/
theorem claim_C4_counterexample :
    (rust_ble_wrapper_start_advertising false true none syncedState).2.1 =
      [TCall.advSetData (buildAdvPayload defaultName)] ∧
    (rust_ble_wrapper_start_advertising false true none syncedState).2.2 = 0 := by
  decide

/-- C4 (amended): when a transport call inside the Start Advertising
Action fails during startAdvertising in an initialized synchronized
state, the whole state is left unchanged and no automatic retry occurs
(the trace holds at most one start attempt), but the failure is silently
swallowed: the call returns 0 (success) to its caller. -/
theorem claim_C4_transport_failure_silent (s : BleState) (sd st : Bool)
    (hin : s.initialized = true) (hsy : s.hostSynced = true)
    (hf : sd = false ∨ st = false) :
    (rust_ble_wrapper_start_advertising sd st none s).1 = s ∧
    (rust_ble_wrapper_start_advertising sd st none s).2.2 = 0 ∧
    countStart (rust_ble_wrapper_start_advertising sd st none s).2.1 ≤ 1 := by
  rcases hf with hf | hf
  · subst hf
    simp [rust_ble_wrapper_start_advertising, nameUpdate, do_start_advertising,
      countStart, hin, hsy]
  · subst hf
    cases sd with
    | false =>
        simp [rust_ble_wrapper_start_advertising, nameUpdate, do_start_advertising,
          countStart, hin, hsy]
    | true =>
        simp [rust_ble_wrapper_start_advertising, nameUpdate, do_start_advertising,
          countStart, hin, hsy]

/-- C4 witness: the amended theorem applied to the synchronized state
with a failing set-data call. -/
theorem claim_C4_witness :
    syncedState.initialized = true ∧ syncedState.hostSynced = true ∧
    (false = false ∨ true = false) ∧
    ((rust_ble_wrapper_start_advertising false true none syncedState).1 = syncedState ∧
     (rust_ble_wrapper_start_advertising false true none syncedState).2.2 = 0 ∧
     countStart (rust_ble_wrapper_start_advertising false true none syncedState).2.1 ≤ 1) :=
  ⟨by decide, by decide, Or.inl rfl,
   claim_C4_transport_failure_silent syncedState false true (by decide) (by decide)
     (Or.inl rfl)⟩

/-- C5: the Start Advertising Action performs NO truncation.  A 27-byte
device name (which fits g_device_name, capacity 31) yields a 32-byte
payload, exceeding BLE_HS_ADV_MAX_SZ = 31, the declared capacity of the
stack buffer ad[] — the C code writes one byte past the buffer.  The
full call at a synchronized state emits exactly this oversized payload,
with the complete untruncated name embedded. -/
theorem claim_C5_payload_overflow :
    name27.length = 27 ∧ name27.take 31 = name27 ∧
    (buildAdvPayload name27).length = 32 ∧
    BLE_HS_ADV_MAX_SZ = 31 ∧
    (rust_ble_wrapper_start_advertising true true (some name27) syncedState).2.1 =
      [TCall.gapNameSet name27, TCall.advSetData (buildAdvPayload name27),
       TCall.advStart] := by
  decide

/-- C6 counterexample: in the native backend, calling stopAdvertising
while not initialized (and not advertising) returns -ENODEV, not
success, refuting the claim that the operation returns ok in every
initialization state. -/
theorem claim_C6_counterexample :
    (native_stop_advertising none
      { initialized := false, advertising := false }).2.2 ≠ 0 := by
  decide

/-- C6 (amended): stopAdvertising while not advertising issues no
transport stop call and returns success, and the NimBLE backend returns
0 in every state; but the native backend returns ok only when
initialized — when called before init it returns -ENODEV. -/
theorem claim_C6_stop_idempotent (s v : BleState) (t u : NativeBleState)
    (e f : Option Int)
    (hs : s.advertising = false) (ht1 : t.initialized = true)
    (ht2 : t.advertising = false) (hu : u.initialized = false) :
    rust_ble_wrapper_stop_advertising s = (s, [], 0) ∧
    (rust_ble_wrapper_stop_advertising v).2.2 = 0 ∧
    native_stop_advertising e t = (t, [], 0) ∧
    (native_stop_advertising f u).2.2 = -ENODEV := by
  refine ⟨?_, ?_, ?_, ?_⟩
  · simp [rust_ble_wrapper_stop_advertising, hs]
  · simp only [rust_ble_wrapper_stop_advertising]
    split_ifs <;> rfl
  · simp [native_stop_advertising, ht1, ht2]
  · simp [native_stop_advertising, hu]

/-- C6 witness: the amended theorem instantiated at concrete states of
both backends. -/
theorem claim_C6_witness :
    initialState.advertising = false ∧
    (⟨true, false⟩ : NativeBleState).initialized = true ∧
    (⟨true, false⟩ : NativeBleState).advertising = false ∧
    (⟨false, false⟩ : NativeBleState).initialized = false ∧
    (rust_ble_wrapper_stop_advertising initialState = (initialState, [], 0) ∧
     (rust_ble_wrapper_stop_advertising advState).2.2 = 0 ∧
     native_stop_advertising none ⟨true, false⟩ = (⟨true, false⟩, [], 0) ∧
     (native_stop_advertising none ⟨false, false⟩).2.2 = -ENODEV) :=
  ⟨by decide, by decide, by decide, by decide,
   claim_C6_stop_idempotent initialState advState ⟨true, false⟩ ⟨false, false⟩
     none none (by decide) (by decide) (by decide) (by decide)⟩

/-- C7: writing command bytes 97 98 99, then 100 101, then one take with
capacity 64 yields exactly the bytes 100 101 (length 2): the later write
overwrote the undrained earlier one; an immediate second take yields
nothing (length 0): the read cleared the mailbox. -/
theorem claim_C7_mailbox_last_write_wins :
    firstTake.1 = [100, 101] ∧ firstTake.2.1 = 2 ∧
    (rust_ble_wrapper_gatt_get_command 64 firstTake.2.2).1 = [] ∧
    (rust_ble_wrapper_gatt_get_command 64 firstTake.2.2).2.1 = 0 := by
  decide

/-- C9 counterexample: starting from the uninitialized state, when both
GATT registrations succeed and the HCI thread spawns but the host thread
spawn fails (rc 11), init returns the error with the HCI thread still
running — the already-spawned context is NOT stopped, refuting the
claim at this concrete input. -/
theorem claim_C9_counterexample :
    (rust_ble_wrapper_init 0 0 0 11 initialState).1.hciRunning = true ∧
    (rust_ble_wrapper_init 0 0 0 11 initialState).2 = -11 := by
  decide

/-- C9 (amended): if the host-thread spawn fails after the HCI thread was
spawned, the whole init call fails with the spawn error and the
lifecycle state remains not-initialized (so a retry is possible), but
the already-spawned HCI thread is left running: the code does not stop
it before returning. -/
theorem claim_C9_partial_init_leaks_thread (s : BleState) (hostRc : Int)
    (h0 : s.initialized = false) (h1 : hostRc ≠ 0) :
    (rust_ble_wrapper_init 0 0 0 hostRc s).2 = -hostRc ∧
    (rust_ble_wrapper_init 0 0 0 hostRc s).1.initialized = false ∧
    (rust_ble_wrapper_init 0 0 0 hostRc s).1.hciRunning = true := by
  simp [rust_ble_wrapper_init, h0, h1]

/-- C9 witness: the amended theorem applied to the initial state with a
host-thread spawn failure. -/
theorem claim_C9_witness :
    initialState.initialized = false ∧ (11 : Int) ≠ 0 ∧
    ((rust_ble_wrapper_init 0 0 0 11 initialState).2 = -11 ∧
     (rust_ble_wrapper_init 0 0 0 11 initialState).1.initialized = false ∧
     (rust_ble_wrapper_init 0 0 0 11 initialState).1.hciRunning = true) :=
  ⟨by decide, by decide,
   claim_C9_partial_init_leaks_thread initialState 11 (by decide) (by decide)⟩

/-- C10: when the mailbox holds a command longer than fits the supplied
capacity, takeCommand copies out only the first capacity-minus-one bytes
yet clears the whole mailbox, so the remainder is permanently lost. -/
theorem claim_C10_short_take_clears_all (s : BleState) (cap : Int)
    (h1 : 1 ≤ cap) (h2 : cap - 1 < (s.gattCommand.length : Int)) :
    (rust_ble_wrapper_gatt_get_command cap s).1 =
      s.gattCommand.take (cap - 1).toNat ∧
    (rust_ble_wrapper_gatt_get_command cap s).2.1 = cap - 1 ∧
    (rust_ble_wrapper_gatt_get_command cap s).2.2.gattCommand = [] ∧
    rust_ble_wrapper_gatt_has_command
      (rust_ble_wrapper_gatt_get_command cap s).2.2 = false := by
  have hlen : ¬ ((s.gattCommand.length : Int) = 0) := by omega
  have hcap : ¬ (cap ≤ (0 : Int)) := by omega
  simp [rust_ble_wrapper_gatt_get_command, rust_ble_wrapper_gatt_has_command,
    hlen, hcap, h2]

/-- C10 witness: a three-byte command taken with capacity 2 copies one
byte and clears the mailbox. -/
theorem claim_C10_witness :
    (1 : Int) ≤ 2 ∧ (2 : Int) - 1 < (cmdState.gattCommand.length : Int) ∧
    ((rust_ble_wrapper_gatt_get_command 2 cmdState).1 =
       cmdState.gattCommand.take ((2 : Int) - 1).toNat ∧
     (rust_ble_wrapper_gatt_get_command 2 cmdState).2.1 = (2 : Int) - 1 ∧
     (rust_ble_wrapper_gatt_get_command 2 cmdState).2.2.gattCommand = [] ∧
     rust_ble_wrapper_gatt_has_command
       (rust_ble_wrapper_gatt_get_command 2 cmdState).2.2 = false) :=
  ⟨by decide, by decide,
   claim_C10_short_take_clears_all cmdState 2 (by decide) (by decide)⟩

/-- C1: calling startAdvertising in an initialized state before the host
has synchronized issues no transport start call (whatever the transport
oracles would answer), sets the pending flag (state PendingSync) and
returns success; the subsequent Sync event (with successful address
setup and transport calls) issues exactly one start call, with the
advertising payload built from the requested name. -/
theorem claim_C1_deferred_start_replayed_on_sync (s : BleState) (name : List Nat)
    (sd st : Bool) (hin : s.initialized = true) (hsy : s.hostSynced = false)
    (hne : name ≠ []) (hlen : name.length ≤ 31) :
    countStart (rust_ble_wrapper_start_advertising sd st (some name) s).2.1 = 0 ∧
    (rust_ble_wrapper_start_advertising sd st (some name) s).1.pendingAdv = true ∧
    (rust_ble_wrapper_start_advertising sd st (some name) s).2.2 = 0 ∧
    (ble_on_sync true true true true
        (rust_ble_wrapper_start_advertising sd st (some name) s).1).2 =
      [TCall.advSetData (buildAdvPayload name), TCall.advStart] ∧
    countStart (ble_on_sync true true true true
        (rust_ble_wrapper_start_advertising sd st (some name) s).1).2 = 1 ∧
    (ble_on_sync true true true true
        (rust_ble_wrapper_start_advertising sd st (some name) s).1).1.advertising =
      true := by
  have htake : name.take 31 = name := List.take_of_length_le hlen
  simp [rust_ble_wrapper_start_advertising, nameUpdate, ble_on_sync,
    do_start_advertising, countStart, hin, hsy, hne, htake]

/-- C1 witness: the theorem applied at the initialized unsynced state
with the one-byte name 88, with both start-time transport oracles set to
false to exhibit that the deferred path consults no transport. -/
theorem claim_C1_witness :
    ({ initialState with initialized := true } : BleState).initialized = true ∧
    ({ initialState with initialized := true } : BleState).hostSynced = false ∧
    ([88] : List Nat) ≠ [] ∧ ([88] : List Nat).length ≤ 31 ∧
    (countStart (rust_ble_wrapper_start_advertising false false (some [88])
        { initialState with initialized := true }).2.1 = 0 ∧
     (rust_ble_wrapper_start_advertising false false (some [88])
        { initialState with initialized := true }).1.pendingAdv = true ∧
     (rust_ble_wrapper_start_advertising false false (some [88])
        { initialState with initialized := true }).2.2 = 0 ∧
     (ble_on_sync true true true true
        (rust_ble_wrapper_start_advertising false false (some [88])
          { initialState with initialized := true }).1).2 =
       [TCall.advSetData (buildAdvPayload [88]), TCall.advStart] ∧
     countStart (ble_on_sync true true true true
        (rust_ble_wrapper_start_advertising false false (some [88])
          { initialState with initialized := true }).1).2 = 1 ∧
     (ble_on_sync true true true true
        (rust_ble_wrapper_start_advertising false false (some [88])
          { initialState with initialized := true }).1).1.advertising = true) :=
  ⟨by decide, by decide, by decide, by decide,
   claim_C1_deferred_start_replayed_on_sync { initialState with initialized := true }
     [88] false false (by decide) (by decide) (by decide) (by decide)⟩

/-- C3: a Disconnect event in an advertising state (with the set-data
transport call accepted) re-issues exactly one start call, whatever the
outcome of the start call itself; a Disconnect event while not
advertising issues none, whatever the transport oracles. -/
theorem claim_C3_disconnect_resumes_advertising (s t : BleState)
    (st sd2 st2 : Bool) (ha : s.advertising = true) (hi : t.advertising = false) :
    countStart (ble_gap_event_disconnect true st s).2 = 1 ∧
    countStart (ble_gap_event_disconnect sd2 st2 t).2 = 0 := by
  constructor
  · cases st <;>
      simp [ble_gap_event_disconnect, do_start_advertising, countStart, ha]
  · simp [ble_gap_event_disconnect, countStart, hi]

/-- C3 witness: the theorem applied to the advertising state and the
initial (idle) state. -/
theorem claim_C3_witness :
    advState.advertising = true ∧ initialState.advertising = false ∧
    (countStart (ble_gap_event_disconnect true true advState).2 = 1 ∧
     countStart (ble_gap_event_disconnect true true initialState).2 = 0) :=
  ⟨by decide, by decide,
   claim_C3_disconnect_resumes_advertising advState initialState true true true
     (by decide) (by decide)⟩

/-- C8: setting the status payload to an absent or empty message resets
it to the default greeting; after setting a non-empty message (of at
most 63 bytes) every subsequent peer read of the read characteristic
returns exactly that message, across any sequence of further operations
and events that does not set the payload again. -/
theorem claim_C8_status_payload_round_trip (s : BleState) (m : List Nat)
    (l : List Step) (hne : m ≠ []) (hlen : m.length ≤ 63)
    (hl : ∀ a ∈ l, isSetReadMsg a = false) :
    (rust_ble_wrapper_gatt_set_read_msg none s).1.readMsg = greeting ∧
    (rust_ble_wrapper_gatt_set_read_msg (some []) s).1.readMsg = greeting ∧
    gatt_read_chr true
      (runSteps l (rust_ble_wrapper_gatt_set_read_msg (some m) s).1) = some m := by
  refine ⟨by simp [rust_ble_wrapper_gatt_set_read_msg],
    by simp [rust_ble_wrapper_gatt_set_read_msg], ?_⟩
  have hr := runSteps_readMsg l (rust_ble_wrapper_gatt_set_read_msg (some m) s).1 hl
  have hm : (rust_ble_wrapper_gatt_set_read_msg (some m) s).1.readMsg = m := by
    simp [rust_ble_wrapper_gatt_set_read_msg, hne, List.take_of_length_le hlen]
  simp [gatt_read_chr, hr, hm]

/-- C8 witness: after setting the one-byte payload 88, a reset event and
a mailbox write intervene and a peer read still returns 88. -/
theorem claim_C8_witness :
    ([88] : List Nat) ≠ [] ∧ ([88] : List Nat).length ≤ 63 ∧
    (∀ a ∈ [Step.reset, Step.gattWrite true [1, 2]], isSetReadMsg a = false) ∧
    ((rust_ble_wrapper_gatt_set_read_msg none initialState).1.readMsg = greeting ∧
     (rust_ble_wrapper_gatt_set_read_msg (some []) initialState).1.readMsg = greeting ∧
     gatt_read_chr true
       (runSteps [Step.reset, Step.gattWrite true [1, 2]]
         (rust_ble_wrapper_gatt_set_read_msg (some [88]) initialState).1) =
       some [88]) :=
  ⟨by decide, by decide, by decide,
   claim_C8_status_payload_round_trip initialState [88]
     [Step.reset, Step.gattWrite true [1, 2]] (by decide) (by decide) (by decide)⟩

/-- C2: under any single operation or event of the system, the
advertising flag can only transition from false to true in a step whose
resulting state has the host-sync flag set: every path that sets the
flag is guarded by the current sync flag (startAdvertising), runs after
the Sync handler has just set it (ble_on_sync), or requires the flag to
be true already (the connect-failure and disconnect re-issue paths).
Since this holds for every state, it holds in every reachable state. -/
theorem claim_C2_advertising_requires_sync (a : Step) (s : BleState)
    (h0 : s.advertising = false) (h1 : (step a s).1.advertising = true) :
    (step a s).1.hostSynced = true := by
  cases a with
  | startAdv sd st n =>
      by_cases hi : s.initialized = false
      · simp [step, rust_ble_wrapper_start_advertising, hi, h0] at h1
      · by_cases hs : (nameUpdate n s).1.hostSynced = true
        · simp [step, rust_ble_wrapper_start_advertising, hi, hs,
            do_start_hostSynced]
        · simp [step, rust_ble_wrapper_start_advertising, hi, hs,
            nameUpdate_advertising, h0] at h1
  | stopAdv =>
      simp only [step, rust_ble_wrapper_stop_advertising] at h1 ⊢
      split_ifs at h1 ⊢
      simp_all
  | deinit =>
      simp only [step, rust_ble_wrapper_deinit] at h1 ⊢
      split_ifs at h1 ⊢ <;> simp_all
  | init c b h2 h3 =>
      simp only [step, rust_ble_wrapper_init] at h1 ⊢
      split_ifs at h1 ⊢ <;> simp_all
  | sync en inf sd st =>
      simp only [step, ble_on_sync] at h1 ⊢
      split_ifs at h1 ⊢
      · simp_all
      · simp_all
      · rw [do_start_hostSynced]
      · simp_all
  | reset =>
      simp only [step, ble_on_reset] at h1
      simp_all
  | connect status hh sd st =>
      simp only [step, ble_gap_event_connect] at h1 ⊢
      split_ifs at h1 ⊢ with hc hadv
      · simp_all
      · simp_all
      · simp_all
  | disconnect sd st =>
      simp only [step, ble_gap_event_disconnect] at h1 ⊢
      split_ifs at h1 ⊢ with hadv
      · simp_all
      · simp_all
  | advComplete => simp_all [step]
  | mtu v => simp_all [step]
  | gattWrite ok d =>
      simp only [step, gatt_write_command] at h1 ⊢
      split_ifs at h1 ⊢ <;> simp_all
  | gattTake cap =>
      simp only [step, rust_ble_wrapper_gatt_get_command] at h1 ⊢
      split_ifs at h1 ⊢ <;> simp_all
  | setReadMsg m =>
      cases m with
      | none => simp_all [step, rust_ble_wrapper_gatt_set_read_msg]
      | some mm =>
          simp only [step, rust_ble_wrapper_gatt_set_read_msg] at h1 ⊢
          split_ifs at h1 ⊢ <;> simp_all

/-- C2 witness: the Sync event delivered to an initialized state with a
pending request flips the advertising flag to true and leaves the sync
flag set. -/
theorem claim_C2_witness :
    pendingState.advertising = false ∧
    (step (Step.sync true true true true) pendingState).1.advertising = true ∧
    (step (Step.sync true true true true) pendingState).1.hostSynced = true :=
  ⟨by decide, by decide,
   claim_C2_advertising_requires_sync (Step.sync true true true true) pendingState
     (by decide) (by decide)⟩

end RustCam
